import Mathlib

/-
Verification development for the Activity Telemetry Normalization Pipeline
(src/src/app.py).  The pipeline's pure core is shallowly embedded below:

  * pandas DataFrames of telemetry rows become `List Row`;
  * the Binary Message Decoder (fitparse) and the XML Document Parser (lxml)
    are external collaborators; their *outcomes* on a byte payload are what
    the core consumes, so a payload is modelled by those outcomes
    (`FitDecodeResult`, `TcxParseResult`).  Crucially, app.py contains no
    try/except at all, so a collaborator exception is modelled as an
    `Except.error` that every caller propagates;
  * timestamps are UTC epoch nanoseconds (`Int`), matching the int64
    nanosecond representation pandas uses for datetime64 columns;
  * Python numbers are modelled exactly as rationals.  IEEE-754 rounding is
    not modelled: finite decimal literals are kept exact, and literals whose
    magnitude would overflow the double range (which CPython turns into
    infinities) are likewise kept exact.  No claim below exercises these
    corners; the special values inf, negative inf and nan are modelled.
-/

/-- A value produced by Python's `float(...)` builtin: a finite number
(kept exact as a rational), an infinity, or a NaN. -/
inductive PyFloat where
  | finite (q : ℚ)
  | inf
  | negInf
  | nan
deriving DecidableEq, Repr

/-- The Python exceptions that app.py can let escape.  There is no
try/except anywhere in app.py except inside `safe_int`/`safe_float`, and
that one catches only `ValueError` and `TypeError`. -/
inductive PyError where
  | overflowErr     -- OverflowError, e.g. int(float("inf"))
  | fitParseRaised  -- fitparse raised while decoding a .fit payload
  | xmlSyntaxRaised -- lxml's etree.fromstring raised (e.g. empty payload)
deriving DecidableEq, Repr

/-- The whitespace characters that Python's `str.strip()` removes, in ASCII
range (Unicode whitespace is out of scope for this development). -/
def pySpace (c : Char) : Bool :=
  c = ' ' || c = '\t' || c = '\n' || c = '\r' || c = '\x0b' || c = '\x0c'

/-- Python's `str.strip()` on ASCII input: drop whitespace from both ends. -/
def pyStrip (s : String) : String :=
  ⟨((s.toList.dropWhile pySpace).reverse.dropWhile pySpace).reverse⟩

/-- The tail of a Python digit part after its first digit: digits with
single underscores allowed strictly between digits (`1_0` is valid, `1_` /
`1__0` are not). -/
def pyDigitTail : List Char → Bool
  | [] => true
  | '_' :: c :: rest => c.isDigit && pyDigitTail rest
  | ['_'] => false
  | c :: rest => c.isDigit && pyDigitTail rest

/-- A Python `digitpart`: at least one digit; underscores only between
digits. -/
def pyDigitPart (cs : List Char) : Bool :=
  match cs with
  | [] => false
  | c :: rest => c.isDigit && pyDigitTail rest

/-- Numeric value of a digit sequence once underscores are removed. -/
def pyDigitsVal (cs : List Char) : ℕ :=
  (cs.filter (fun c => c ≠ '_')).foldl (fun n c => 10 * n + (c.toNat - '0'.toNat)) 0

/-- Split a character list at the first character satisfying `p`
(the splitting character is dropped); `none` if no character satisfies. -/
def splitAtChar (p : Char → Bool) : List Char → Option (List Char × List Char)
  | [] => none
  | c :: rest =>
    if p c then some ([], rest)
    else (splitAtChar p rest).map (fun ab => (c :: ab.1, ab.2))

/-- Validity of the mantissa of a Python float literal: optional integer
part, optional dot, optional fractional part, at least one digit overall. -/
def pyMantissaOk (cs : List Char) : Bool :=
  match splitAtChar (fun c => c = '.') cs with
  | none => pyDigitPart cs
  | some (i, f) =>
    (i.isEmpty || pyDigitPart i) && (f.isEmpty || pyDigitPart f) && !(i.isEmpty && f.isEmpty)

/-- Exact rational value of a valid mantissa. -/
def pyMantissaVal (cs : List Char) : ℚ :=
  match splitAtChar (fun c => c = '.') cs with
  | none => (pyDigitsVal cs : ℚ)
  | some (i, f) =>
    (pyDigitsVal i : ℚ) + (pyDigitsVal f : ℚ) / (10 : ℚ) ^ (f.filter (fun c => c ≠ '_')).length

/-- Validity of the exponent of a Python float literal: optional sign, then
a digit part. -/
def pyExpOk (cs : List Char) : Bool :=
  match cs with
  | '+' :: rest => pyDigitPart rest
  | '-' :: rest => pyDigitPart rest
  | _ => pyDigitPart cs

/-- Signed value of a valid exponent. -/
def pyExpVal (cs : List Char) : ℤ :=
  match cs with
  | '+' :: rest => (pyDigitsVal rest : ℤ)
  | '-' :: rest => -(pyDigitsVal rest : ℤ)
  | _ => (pyDigitsVal cs : ℤ)

/-- Ten to a signed power, as a rational. -/
def qpow10 : ℤ → ℚ
  | Int.ofNat n => (10 : ℚ) ^ n
  | Int.negSucc n => 1 / (10 : ℚ) ^ (n + 1)

/-- Parse the unsigned numeric body of a Python float literal (after the
optional sign): mantissa with optional `e`/`E` exponent. -/
def pyParseFinite (cs : List Char) : Option ℚ :=
  match splitAtChar (fun c => c = 'e' || c = 'E') cs with
  | none => if pyMantissaOk cs then some (pyMantissaVal cs) else none
  | some (m, e) =>
    if pyMantissaOk m && pyExpOk e then some (pyMantissaVal m * qpow10 (pyExpVal e))
    else none

/-- Python's `float(s)` on an already-stripped ASCII string: optional sign,
then (case-insensitively) `inf`/`infinity`/`nan` or a decimal literal.
`none` models `float` raising `ValueError`. -/
def pyParseFloat (s : String) : Option PyFloat :=
  let cs := s.toList
  let sgnRest : ℚ × List Char :=
    match cs with
    | '+' :: r => (1, r)
    | '-' :: r => (-1, r)
    | r => (1, r)
  let sgn := sgnRest.1
  let rest := sgnRest.2
  let low := rest.map Char.toLower
  if low = "inf".toList || low = "infinity".toList then
    some (if sgn = 1 then PyFloat.inf else PyFloat.negInf)
  else if low = "nan".toList then some PyFloat.nan
  else
    match pyParseFinite rest with
    | some q => some (PyFloat.finite (sgn * q))
    | none => none

/-- Python's `int(x)` on a float truncates toward zero; `Int.div` is
T-division, which is exactly that on `num/den`. -/
def ratTrunc (q : ℚ) : ℤ :=
  Int.tdiv q.num (q.den : ℤ)

deriving instance DecidableEq for Except

/--
`safe_int` from app.py lines 93-102:

    if value is None: return None
    value_stripped = value.strip()
    if not value_stripped: return None
    try: return int(float(value_stripped))
    except (ValueError, TypeError): return None

`float` raising ValueError on a malformed token is caught (modelled by
`pyParseFloat` returning `none`).  `int(nan)` raises ValueError, also
caught.  But `int(inf)` raises OverflowError, which the `except` clause
does NOT list, so it escapes. -/
def safe_int (value : Option String) : Except PyError (Option ℤ) :=
  match value with
  | none => Except.ok none
  | some v =>
    let value_stripped := pyStrip v
    if value_stripped = "" then Except.ok none
    else
      match pyParseFloat value_stripped with
      | none => Except.ok none
      | some (PyFloat.finite q) => Except.ok (some (ratTrunc q))
      | some PyFloat.nan => Except.ok none
      | some PyFloat.inf => Except.error PyError.overflowErr
      | some PyFloat.negInf => Except.error PyError.overflowErr

/--
`safe_float` from app.py lines 105-114: same shape as `safe_int` but
without the `int(...)` conversion, so there is no uncaught exception and
the function always returns. -/
def safe_float (value : Option String) : Except PyError (Option PyFloat) :=
  match value with
  | none => Except.ok none
  | some v =>
    let value_stripped := pyStrip v
    if value_stripped = "" then Except.ok none
    else
      match pyParseFloat value_stripped with
      | none => Except.ok none
      | some f => Except.ok (some f)

/-- A telemetry row as it sits in the extracted DataFrame: `timestamp` is
UTC epoch nanoseconds once normalized (`none` models NaT / a null cell),
the three metric fields are nullable numbers.  Integers (heart rate) embed
into the exact rationals. -/
structure Row where
  timestamp : Option ℤ
  hr_bpm : Option ℚ
  power_w : Option ℚ
  speed_kmh : Option ℚ
deriving DecidableEq, Repr

/-- Sort key used by `sort_values("timestamp")`.  Every row reaching the
sort has a present timestamp (the dropna on the timestamp column runs
first), so the default is never consulted on pipeline-produced data. -/
def sortKey (r : Row) : ℤ :=
  r.timestamp.getD 0

/-- Insert a row into a list sorted by `sortKey`, before the first row of
strictly greater-or-equal-coming-later key. -/
def insertByTs (r : Row) : List Row → List Row
  | [] => [r]
  | x :: xs => if sortKey x < sortKey r then x :: insertByTs r xs else r :: x :: xs

/-- Model of `df.sort_values("timestamp")`: an insertion sort producing a
non-decreasing permutation of the rows.  NOTE: the source calls
`sort_values` without `kind=`, so pandas uses its default quicksort, which
pandas documents as NOT stable; this model is a stable sort chosen as one
concrete sorted-permutation implementation, and no stability property of
the source is derived from it (see the C3 analysis). -/
def sortByTimestamp (rows : List Row) : List Row :=
  rows.foldr insertByTs []

/-- A value carried by a decoded FIT field: either a number (heart rate,
power, speed, ...) or a datetime payload (the `timestamp` field).  For a
datetime payload, `t` is the epoch-nanosecond instant that
`pd.to_datetime(..., utc=True, errors="coerce")` normalizes it to, or
`none` when coercion yields NaT. -/
inductive FitValue where
  | num (q : ℚ)
  | stamp (t : Option ℤ)
deriving DecidableEq, Repr

/-- One named field of a decoded FIT `record` message, as exposed by the
Binary Message Decoder collaborator (fitparse); `value` is `none` when the
field is present but its value is Python `None`. -/
structure FitField where
  name : String
  value : Option FitValue
deriving DecidableEq, Repr

/-- The partially-typed dict `row` built by the field loop of
`parse_fit_bytes` (app.py lines 35-51): `timestamp`, `hr_bpm` and
`power_w` store `field.value` verbatim, while `speed_kmh` stores the
converted number. -/
structure FitRowRaw where
  timestamp : Option FitValue
  hr_bpm : Option FitValue
  power_w : Option FitValue
  speed_kmh : Option ℚ
deriving DecidableEq, Repr

/-- The initial row dict of `parse_fit_bytes`: all four entries `None`. -/
def initFitRow : FitRowRaw :=
  ⟨none, none, none, none⟩

/-- One iteration of the field loop of `parse_fit_bytes` (app.py lines
42-51).  Only the `speed` branch guards on `field.value is not None`;
the other branches store the value verbatim (including `None`).  A
non-numeric speed payload would make `float(field.value)` raise TypeError,
but the decoder collaborator only ever yields numeric `speed` fields, so
that branch leaves the row unchanged in this model. -/
def fitRowStep (row : FitRowRaw) (field : FitField) : FitRowRaw :=
  if field.name = "timestamp" then { row with timestamp := field.value }
  else if field.name = "heart_rate" then { row with hr_bpm := field.value }
  else if field.name = "power" then { row with power_w := field.value }
  else if field.name = "speed" then
    match field.value with
    | some (FitValue.num v) => { row with speed_kmh := some (v * (36 / 10 : ℚ)) }
    | some (FitValue.stamp _) => row
    | none => row
  else row

/-- `pd.to_datetime(value, utc=True, errors="coerce")` on one cell of the
raw timestamp column: a datetime payload normalizes to its instant (or NaT
= `none`); a bare number is interpreted as a nanosecond offset from the
epoch (pandas' default unit; the fractional part is out of scope and
floored).  No claim exercises the numeric-timestamp corner. -/
def pdToDatetimeFit : FitValue → Option ℤ
  | FitValue.stamp t => t
  | FitValue.num q => some (Rat.floor q)

/-- Reading a raw `hr_bpm`/`power_w` cell as a number for the final frame.
The decoder collaborator yields numeric heart-rate and power fields; a
datetime payload in these columns is out of scope and reads as absent. -/
def numValue : Option FitValue → Option ℚ
  | some (FitValue.num q) => some q
  | some (FitValue.stamp _) => none
  | none => none

/-- Outcome of the Binary Message Decoder collaborator on a byte payload:
`FitFile(io.BytesIO(b))` / `get_messages("record")` either raises
(`FitParseError`, e.g. on an empty or corrupt buffer) or yields a list of
record messages, each a list of named fields. -/
inductive FitDecodeResult where
  | raised
  | messages (msgs : List (List FitField))
deriving DecidableEq, Repr

/--
`parse_fit_bytes` (app.py lines 30-62).  The decoder raising is modelled
as the error it propagates: the source has no try/except, so the
exception escapes the function.  Otherwise: build a row per message,
keep only rows whose raw timestamp is not `None`, return the empty frame
early when no row survived, normalize the timestamp column, drop rows
whose timestamp coerced to NaT, and sort by timestamp. -/
def parse_fit_bytes (decoded : FitDecodeResult) : Except PyError (List Row) :=
  match decoded with
  | FitDecodeResult.raised => Except.error PyError.fitParseRaised
  | FitDecodeResult.messages msgs =>
    let rawRows := (msgs.map (fun fields => fields.foldl fitRowStep initFitRow)).filter
      (fun r => r.timestamp.isSome)
    if rawRows.isEmpty then Except.ok []
    else
      let converted := rawRows.map (fun r =>
        Row.mk (r.timestamp.bind pdToDatetimeFit) (numValue r.hr_bpm)
          (numValue r.power_w) r.speed_kmh)
      let kept := converted.filter (fun r => r.timestamp.isSome)
      Except.ok (sortByTimestamp kept)

/-- One `Trackpoint` node of a parsed TCX document, reduced to the two
texts the core actually queries: `time` is the result of
`get_first_xpath_text(trackpoint, "./tcx:Time", nsmap)` and `hr` that of
`get_first_xpath_text(trackpoint, "./tcx:HeartRateBpm/tcx:Value", nsmap)`.
XML navigation and namespace resolution happen inside the XML Document
Parser collaborator, behind these two queries. -/
structure Trackpoint where
  time : Option String
  hr : Option String
deriving DecidableEq, Repr

/-- Outcome of the XML Document Parser collaborator on a byte payload:
`etree.fromstring(b)` either raises `XMLSyntaxError` (e.g. on an empty
payload) or yields a document whose `//tcx:Trackpoint` query returns the
given node list. -/
inductive TcxParseResult where
  | raised
  | doc (trackpoints : List Trackpoint)
deriving DecidableEq, Repr

/-- One iteration of the trackpoint loop of `parse_tcx_bytes` (app.py
lines 124-142).  `if not time_text: continue` skips a missing or empty
time text; an unparseable time (NaT from `errors="coerce"`, here `toDt`
returning `none`) is also skipped.  `safe_int` can only fail with the
uncaught OverflowError, which then propagates. -/
def tcxRowOfTrackpoint (toDt : String → Option ℤ) (tp : Trackpoint) :
    Except PyError (Option Row) :=
  match tp.time with
  | none => Except.ok none
  | some time_text =>
    if time_text = "" then Except.ok none
    else
      match toDt time_text with
      | none => Except.ok none
      | some ts =>
        match safe_int tp.hr with
        | Except.error e => Except.error e
        | Except.ok hr =>
          Except.ok (some (Row.mk (some ts) (hr.map (fun i => (i : ℚ))) none none))

/-- The trackpoint for-loop of `parse_tcx_bytes`: accumulate the rows in
document order, propagating any exception. -/
def tcxRows (toDt : String → Option ℤ) : List Trackpoint → Except PyError (List Row)
  | [] => Except.ok []
  | tp :: rest =>
    match tcxRowOfTrackpoint toDt tp with
    | Except.error e => Except.error e
    | Except.ok none => tcxRows toDt rest
    | Except.ok (some r) => (tcxRows toDt rest).map (fun rs => r :: rs)

/--
`parse_tcx_bytes` (app.py lines 117-149).  `toDt` is the collaborator
`pd.to_datetime(time_text, utc=True, errors="coerce")` on a time string
(`none` = NaT).  A parser raise propagates (no try/except in the source).
Rows all carry a present timestamp by construction, so the dropna on the
timestamp column is kept but inert; rows are then sorted by timestamp. -/
def parse_tcx_bytes (toDt : String → Option ℤ) (parsed : TcxParseResult) :
    Except PyError (List Row) :=
  match parsed with
  | TcxParseResult.raised => Except.error PyError.xmlSyntaxRaised
  | TcxParseResult.doc trackpoints =>
    match tcxRows toDt trackpoints with
    | Except.error e => Except.error e
    | Except.ok rows =>
      if rows.isEmpty then Except.ok []
      else Except.ok (sortByTimestamp (rows.filter (fun r => r.timestamp.isSome)))

/-- Column access `df[value_column]` for the metric columns of the
telemetry frame.  Every frame built by the extractors has exactly the
columns `timestamp`, `hr_bpm`, `power_w`, `speed_kmh`; any other column
name would raise KeyError in pandas, and only members of
`SUPPORTED_METRICS` are ever passed, so the final case is inert. -/
def Row.col (r : Row) (value_column : String) : Option ℚ :=
  if value_column = "hr_bpm" then r.hr_bpm
  else if value_column = "power_w" then r.power_w
  else if value_column = "speed_kmh" then r.speed_kmh
  else none

/-- The charting series dict `{"name": ..., "data": ...}`: `data` is a
list of `[timestamp_ms, value]` points. -/
structure MetricSeries where
  name : String
  data : List (ℤ × ℚ)
deriving DecidableEq, Repr

/-- The body of the point loop of `dataframe_to_apex_series`: the point
`[ts_ns // 1_000_000, float(value)]` when both the timestamp and the
metric value are present, nothing otherwise (this arm is the loop's
`if metric_value is None: continue`). -/
def pointOf (value_column : String) (r : Row) : Option (ℤ × ℚ) :=
  match r.timestamp, r.col value_column with
  | some ts, some v => some (Int.fdiv ts 1000000, v)
  | _, _ => none

/--
`dataframe_to_apex_series` (app.py lines 161-178).  Empty frame: empty
series.  Otherwise drop the rows missing the timestamp or the metric
(`dropna(subset=["timestamp", value_column])`); if nothing is left, empty
series; otherwise emit one point per surviving row, where
`ts_ms = ts_ns // 1_000_000` (int64 floor division). -/
def dataframe_to_apex_series (df_data : List Row) (value_column : String)
    (series_name : String) : MetricSeries :=
  if df_data.isEmpty then ⟨series_name, []⟩
  else
    let df_metric := df_data.filter
      (fun r => r.timestamp.isSome && (r.col value_column).isSome)
    if df_metric.isEmpty then ⟨series_name, []⟩
    else ⟨series_name, df_metric.filterMap (pointOf value_column)⟩

/-- `dataframe_to_apex_series` with the frame threaded through in
state-passing style.  The pandas calls it makes (`dropna`, `astype`,
`tolist`) all return fresh objects — no `inplace=True` anywhere — so the
input frame comes back unchanged. -/
def dataframe_to_apex_series_step (df_data : List Row) (value_column : String)
    (series_name : String) : List Row × MetricSeries :=
  (df_data, dataframe_to_apex_series df_data value_column series_name)

/-- `SUPPORTED_METRICS` (app.py line 17), as the list it is iterated as. -/
def SUPPORTED_METRICS : List String :=
  ["hr_bpm", "speed_kmh", "power_w"]

/-- `init_series_response` (app.py lines 181-182): the fresh response
dict, one key per supported metric, each bound to an empty list.  Python
dicts preserve insertion order, so the dict is an ordered association
list. -/
def init_series_response : List (String × List MetricSeries) :=
  SUPPORTED_METRICS.map (fun metric => (metric, []))

/-- A byte payload, modelled by what each decoder collaborator would do
with it.  Only one side is ever consulted per file, chosen by the filename
suffix.  For the empty byte string both sides are `raised`: fitparse
cannot read a FIT header from an empty buffer, and `etree.fromstring(b"")`
raises XMLSyntaxError. -/
structure FileBytes where
  fit : FitDecodeResult
  tcx : TcxParseResult
deriving DecidableEq, Repr

/-- An uploaded file as the batch endpoint sees it.  FastAPI's
`UploadFile.filename` may be `None` or empty; `filename or "file"` in the
source maps both to `"file"`, modelled by the empty-string check in
`effectiveName`. -/
structure UploadFile where
  filename : String
  content : FileBytes
deriving DecidableEq, Repr

/-- `uploaded_file.filename or "file"` (app.py line 190). -/
def effectiveName (uf : UploadFile) : String :=
  if uf.filename = "" then "file" else uf.filename

/-- Python's `str.lower()` on ASCII input, character by character. -/
def pyLower (s : String) : String :=
  ⟨s.toList.map Char.toLower⟩

/-- Python's `str.endswith(suffix)` on ASCII input. -/
def pyEndsWith (s suffix : String) : Bool :=
  suffix.toList.isSuffixOf s.toList

/--
`extract_dataframe_from_file` (app.py lines 152-158): case-insensitive
suffix dispatch — `.fit` to the binary extractor, `.tcx` to the XML
extractor, anything else to an empty frame. -/
def extract_dataframe_from_file (toDt : String → Option ℤ) (filename : String)
    (b : FileBytes) : Except PyError (List Row) :=
  let lowered_name := pyLower filename
  if pyEndsWith lowered_name ".fit" then parse_fit_bytes b.fit
  else if pyEndsWith lowered_name ".tcx" then parse_tcx_bytes toDt b.tcx
  else Except.ok []

/-- `series_by_metric[metric].append(apex_series)`: append one series to
the list bound to `key`, leaving the other keys untouched. -/
def appendSeries (resp : List (String × List MetricSeries)) (key : String)
    (s : MetricSeries) : List (String × List MetricSeries) :=
  resp.map (fun kv => if kv.1 = key then (kv.1, kv.2 ++ [s]) else kv)

/--
The body of the per-file loop of `parse_activity_files` (app.py lines
189-200): read the file, extract its frame (an extractor exception
propagates), skip the file entirely when the frame is empty, otherwise
project each supported metric and append only non-empty series. -/
def processFile (toDt : String → Option ℤ) (resp : List (String × List MetricSeries))
    (uf : UploadFile) : Except PyError (List (String × List MetricSeries)) :=
  let filename := effectiveName uf
  match extract_dataframe_from_file toDt filename uf.content with
  | Except.error e => Except.error e
  | Except.ok df_data =>
    if df_data.isEmpty then Except.ok resp
    else
      Except.ok (SUPPORTED_METRICS.foldl (fun acc metric =>
        let apex_series := dataframe_to_apex_series df_data metric filename
        if apex_series.data.isEmpty then acc else appendSeries acc metric apex_series) resp)

/-- The file for-loop of `parse_activity_files`, left to right. -/
def processFiles (toDt : String → Option ℤ) (resp : List (String × List MetricSeries)) :
    List UploadFile → Except PyError (List (String × List MetricSeries))
  | [] => Except.ok resp
  | uf :: rest =>
    match processFile toDt resp uf with
    | Except.error e => Except.error e
    | Except.ok resp' => processFiles toDt resp' rest

/--
`parse_activity_files` (app.py lines 185-202), up to the final
`{"series": series_by_metric}` wrapper added by the HTTP layer: start from
the fresh response dict and fold the uploaded files through the per-file
loop. -/
def parse_activity_files (toDt : String → Option ℤ) (files : List UploadFile) :
    Except PyError (List (String × List MetricSeries)) :=
  processFiles toDt init_series_response files

/-- What one file contributes to one metric's collection: nothing if its
frame is empty or the projected series has no data, else that series.
(The `error` arm is never consulted on a batch that completes.) -/
def fileContribution (toDt : String → Option ℤ) (uf : UploadFile) (metric : String) :
    Option MetricSeries :=
  match extract_dataframe_from_file toDt (effectiveName uf) uf.content with
  | Except.error _ => none
  | Except.ok df_data =>
    if df_data.isEmpty then none
    else
      let apex_series := dataframe_to_apex_series df_data metric (effectiveName uf)
      if apex_series.data.isEmpty then none else some apex_series

/-- The per-metric series list a completed batch ends up with: the
submission-ordered file list, filtered down to the files that contribute
to this metric. -/
def batchSeries (toDt : String → Option ℤ) (files : List UploadFile) (metric : String) :
    List MetricSeries :=
  files.filterMap (fun uf => fileContribution toDt uf metric)

/-- A concrete instantiation of the `pd.to_datetime` collaborator used in
examples and witnesses: a non-empty all-digit string denotes that many
nanoseconds since the epoch; anything else is NaT. -/
def toDt0 (s : String) : Option ℤ :=
  let cs := s.toList
  if !cs.isEmpty && cs.all Char.isDigit then some (pyDigitsVal cs : ℤ) else none

unseal Rat.mul Rat.add Rat.inv

example : safe_int (some "140") = Except.ok (some 140) := by decide
example : safe_int (some " 12.9 ") = Except.ok (some 12) := by decide
example : safe_int (some "-12.9") = Except.ok (some (-12)) := by decide
example : safe_int (some "abc") = Except.ok none := by decide
example : safe_int (some "") = Except.ok none := by decide
example : safe_int none = Except.ok none := by decide
example : safe_int (some "nan") = Except.ok none := by decide
example : safe_int (some "1_0e1") = Except.ok (some 100) := by decide
example : safe_int (some "inf") = Except.error PyError.overflowErr := by decide
example : safe_float (some "2.5") = Except.ok (some (PyFloat.finite (5/2))) := by decide
example : safe_float (some "inf") = Except.ok (some PyFloat.inf) := by decide
example : safe_float (some "1_") = Except.ok none := by decide
example : safe_float (some ".") = Except.ok none := by decide
example : safe_float (some ".5e1") = Except.ok (some (PyFloat.finite 5)) := by decide

example :
    parse_fit_bytes (FitDecodeResult.messages
      [[⟨"timestamp", some (FitValue.stamp (some 20))⟩, ⟨"heart_rate", some (FitValue.num 150)⟩,
        ⟨"speed", some (FitValue.num 5)⟩],
       [⟨"timestamp", some (FitValue.stamp (some 10))⟩, ⟨"power", some (FitValue.num 200)⟩],
       [⟨"heart_rate", some (FitValue.num 99)⟩]]) =
    Except.ok [⟨some 10, none, some 200, none⟩, ⟨some 20, some 150, none, some 18⟩] := by decide

example : parse_fit_bytes FitDecodeResult.raised = Except.error PyError.fitParseRaised := by decide

example : parse_fit_bytes (FitDecodeResult.messages []) = Except.ok [] := by decide

example :
    parse_tcx_bytes toDt0 (TcxParseResult.doc
      [⟨some "20", some "140"⟩, ⟨some "", some "90"⟩, ⟨none, some "91"⟩,
       ⟨some "oops", some "92"⟩, ⟨some "10", none⟩]) =
    Except.ok [⟨some 10, none, none, none⟩, ⟨some 20, some 140, none, none⟩] := by decide

example :
    parse_tcx_bytes toDt0 (TcxParseResult.doc [⟨some "10", some "inf"⟩]) =
    Except.error PyError.overflowErr := by decide

/-- A structurally corrupt (for instance empty) payload: both decoder
collaborators raise on it. -/
def corruptPayload : FileBytes :=
  ⟨FitDecodeResult.raised, TcxParseResult.raised⟩

/-- A healthy one-trackpoint TCX payload (`Time=10ns`, `HeartRateBpm/Value=140`). -/
def goodTcxPayload : FileBytes :=
  ⟨FitDecodeResult.raised, TcxParseResult.doc [⟨some "10", some "140"⟩]⟩

/-- A `.fit` payload that decodes but contains zero record messages. -/
def emptyFitPayload : FileBytes :=
  ⟨FitDecodeResult.messages [], TcxParseResult.raised⟩

example :
    parse_activity_files toDt0 [⟨"b.tcx", goodTcxPayload⟩] =
    Except.ok [("hr_bpm", [⟨"b.tcx", [(0, 140)]⟩]), ("speed_kmh", []), ("power_w", [])] := by
  decide

example :
    parse_activity_files toDt0 [⟨"a.fit", corruptPayload⟩, ⟨"b.tcx", goodTcxPayload⟩] =
    Except.error PyError.fitParseRaised := by decide

example :
    parse_activity_files toDt0 [⟨"ride.gpx", corruptPayload⟩, ⟨"b.tcx", goodTcxPayload⟩] =
    Except.ok [("hr_bpm", [⟨"b.tcx", [(0, 140)]⟩]), ("speed_kmh", []), ("power_w", [])] := by
  decide

example : parse_activity_files toDt0 [] = Except.ok [("hr_bpm", []), ("speed_kmh", []), ("power_w", [])] := by decide

theorem processFile_skip (toDt : String → Option ℤ) (resp : List (String × List MetricSeries))
    (uf : UploadFile)
    (h : extract_dataframe_from_file toDt (effectiveName uf) uf.content = Except.ok []) :
    processFile toDt resp uf = Except.ok resp := by
  simp [processFile, h]

theorem processFiles_cons (toDt : String → Option ℤ)
    (resp : List (String × List MetricSeries)) (uf : UploadFile)
    (rest : List UploadFile) :
    processFiles toDt resp (uf :: rest) =
      match processFile toDt resp uf with
      | Except.error e => Except.error e
      | Except.ok resp' => processFiles toDt resp' rest := rfl

theorem processFiles_skip_elem (toDt : String → Option ℤ) (uf : UploadFile)
    (h : extract_dataframe_from_file toDt (effectiveName uf) uf.content = Except.ok []) :
    ∀ (pre post : List UploadFile) (resp : List (String × List MetricSeries)),
      processFiles toDt resp (pre ++ uf :: post) = processFiles toDt resp (pre ++ post) := by
  intro pre
  induction pre with
  | nil =>
    intro post resp
    show processFiles toDt resp (uf :: post) = processFiles toDt resp post
    rw [processFiles_cons, processFile_skip toDt resp uf h]
  | cons x xs ih =>
    intro post resp
    show processFiles toDt resp (x :: (xs ++ uf :: post)) = processFiles toDt resp (x :: (xs ++ post))
    rw [processFiles_cons, processFiles_cons]
    cases hx : processFile toDt resp x with
    | error e => rfl
    | ok resp' => exact ih post resp'

/-- C1 as stated is false on the code: a `.fit` file whose decoder raises
(of which an empty byte payload is an instance) does not yield an empty
Dataset — app.py has no try/except, so the exception escapes
`parse_activity_files` and the remaining files of the batch are never
processed.  The second conjunct shows the healthy remainder of the batch
would have produced a series on its own. -/
theorem corrupt_file_aborts_batch_c1_counterexample :
    parse_activity_files toDt0 [⟨"a.fit", corruptPayload⟩, ⟨"b.tcx", goodTcxPayload⟩] =
      Except.error PyError.fitParseRaised ∧
    parse_activity_files toDt0 [⟨"b.tcx", goodTcxPayload⟩] =
      Except.ok [("hr_bpm", [⟨"b.tcx", [(0, 140)]⟩]), ("speed_kmh", []), ("power_w", [])] := by
  decide

/-- C1 (amended): when the decoder/parser *returns zero messages or
nodes* (rather than raising), the file yields an empty Dataset,
contributes nothing to any metric, and the remaining files of the batch
are processed exactly as if the file had not been submitted. -/
theorem empty_decode_empty_dataset_c1 (toDt : String → Option ℤ) (uf : UploadFile)
    (h : (pyEndsWith (pyLower (effectiveName uf)) ".fit" = true ∧
            uf.content.fit = FitDecodeResult.messages []) ∨
         (pyEndsWith (pyLower (effectiveName uf)) ".fit" = false ∧
            pyEndsWith (pyLower (effectiveName uf)) ".tcx" = true ∧
            uf.content.tcx = TcxParseResult.doc [])) :
    extract_dataframe_from_file toDt (effectiveName uf) uf.content = Except.ok [] ∧
    ∀ (pre post : List UploadFile),
      parse_activity_files toDt (pre ++ uf :: post) = parse_activity_files toDt (pre ++ post) := by
  have hex : extract_dataframe_from_file toDt (effectiveName uf) uf.content = Except.ok [] := by
    rcases h with ⟨hfit, hmsgs⟩ | ⟨hnfit, htcx, hdoc⟩
    · simp [extract_dataframe_from_file, hfit, hmsgs, parse_fit_bytes]
    · simp [extract_dataframe_from_file, hnfit, htcx, hdoc, parse_tcx_bytes, tcxRows]
  refine ⟨hex, fun pre post => ?_⟩
  unfold parse_activity_files
  exact processFiles_skip_elem toDt uf hex pre post init_series_response

theorem empty_decode_empty_dataset_c1_witness :
    extract_dataframe_from_file toDt0 (effectiveName ⟨"empty.fit", emptyFitPayload⟩)
        emptyFitPayload = Except.ok [] ∧
    parse_activity_files toDt0 [⟨"empty.fit", emptyFitPayload⟩, ⟨"b.tcx", goodTcxPayload⟩] =
      parse_activity_files toDt0 [⟨"b.tcx", goodTcxPayload⟩] := by
  have h := empty_decode_empty_dataset_c1 toDt0 ⟨"empty.fit", emptyFitPayload⟩
    (Or.inl ⟨by decide, rfl⟩)
  exact ⟨h.1, h.2 [] [⟨"b.tcx", goodTcxPayload⟩]⟩

/-- C2 is right and the code is wrong: `safe_int` is meant never to raise,
but its `except (ValueError, TypeError)` clause misses the OverflowError
that `int(float(s))` raises when `float(s)` is an infinity, so
`safe_int("inf")` (equally `" Infinity "`, `"-inf"`) propagates an
exception.  The companions show `safe_float` returns the infinity without
raising, and the decimal-truncation behavior the claim describes. -/
theorem safe_scalar_overflow_c2 :
    safe_int (some "inf") = Except.error PyError.overflowErr ∧
    safe_int (some " Infinity ") = Except.error PyError.overflowErr ∧
    safe_int (some "-inf") = Except.error PyError.overflowErr ∧
    safe_float (some "inf") = Except.ok (some PyFloat.inf) ∧
    safe_int (some "12.9") = Except.ok (some 12) ∧
    safe_int (some "") = Except.ok none ∧
    safe_int (some "  ") = Except.ok none ∧
    safe_int none = Except.ok none ∧
    safe_int (some "12abc") = Except.ok none := by
  decide

/-- C9: projecting a dataset is deterministic and leaves the dataset
unchanged — `dropna`, `astype` and `tolist` all return fresh objects, so
the same frame projected twice yields the same MetricSeries. -/
theorem projection_deterministic_c9 (df_data : List Row)
    (value_column series_name : String) :
    (dataframe_to_apex_series_step df_data value_column series_name).1 = df_data ∧
    (dataframe_to_apex_series_step
        (dataframe_to_apex_series_step df_data value_column series_name).1
        value_column series_name).2 =
      (dataframe_to_apex_series_step df_data value_column series_name).2 :=
  ⟨rfl, rfl⟩

/-- C7: format selection is a case-insensitive suffix match — a lowered
name ending in `.fit` goes to the binary extractor, one ending in `.tcx`
to the XML extractor, and any other name yields an empty Dataset, so the
file contributes nothing and the rest of the batch is processed as if the
file had not been submitted. -/
theorem format_sniffing_c7 (toDt : String → Option ℤ) (uf : UploadFile) :
    (pyEndsWith (pyLower (effectiveName uf)) ".fit" = true →
      extract_dataframe_from_file toDt (effectiveName uf) uf.content =
        parse_fit_bytes uf.content.fit) ∧
    (pyEndsWith (pyLower (effectiveName uf)) ".fit" = false →
      pyEndsWith (pyLower (effectiveName uf)) ".tcx" = true →
      extract_dataframe_from_file toDt (effectiveName uf) uf.content =
        parse_tcx_bytes toDt uf.content.tcx) ∧
    (pyEndsWith (pyLower (effectiveName uf)) ".fit" = false →
      pyEndsWith (pyLower (effectiveName uf)) ".tcx" = false →
      extract_dataframe_from_file toDt (effectiveName uf) uf.content = Except.ok [] ∧
      ∀ (pre post : List UploadFile),
        parse_activity_files toDt (pre ++ uf :: post) =
          parse_activity_files toDt (pre ++ post)) := by
  refine ⟨fun hfit => ?_, fun hnfit htcx => ?_, fun hnfit hntcx => ?_⟩
  · simp [extract_dataframe_from_file, hfit]
  · simp [extract_dataframe_from_file, hnfit, htcx]
  · have hex : extract_dataframe_from_file toDt (effectiveName uf) uf.content =
        Except.ok [] := by
      simp [extract_dataframe_from_file, hnfit, hntcx]
    refine ⟨hex, fun pre post => ?_⟩
    unfold parse_activity_files
    exact processFiles_skip_elem toDt uf hex pre post init_series_response

theorem format_sniffing_c7_witness :
    extract_dataframe_from_file toDt0 "A.FIT" corruptPayload =
      parse_fit_bytes corruptPayload.fit ∧
    extract_dataframe_from_file toDt0 "ride.gpx" goodTcxPayload = Except.ok [] ∧
    parse_activity_files toDt0 [⟨"ride.gpx", goodTcxPayload⟩, ⟨"b.tcx", goodTcxPayload⟩] =
      parse_activity_files toDt0 [⟨"b.tcx", goodTcxPayload⟩] := by
  have h1 := (format_sniffing_c7 toDt0 ⟨"A.FIT", corruptPayload⟩).1 (by decide)
  have h2 := (format_sniffing_c7 toDt0 ⟨"ride.gpx", goodTcxPayload⟩).2.2 (by decide) (by decide)
  exact ⟨h1, h2.1, h2.2 [] [⟨"b.tcx", goodTcxPayload⟩]⟩

theorem fitRowStep_speed_skip (row : FitRowRaw) (field : FitField)
    (h : field.name = "speed" → field.value = none) :
    (fitRowStep row field).speed_kmh = row.speed_kmh := by
  unfold fitRowStep
  by_cases h1 : field.name = "timestamp"
  · simp [h1]
  · by_cases h2 : field.name = "heart_rate"
    · simp [h1, h2]
    · by_cases h3 : field.name = "power"
      · simp [h1, h2, h3]
      · by_cases h4 : field.name = "speed"
        · simp [h1, h2, h3, h4, h h4]
        · simp [h1, h2, h3, h4]

theorem foldl_speed_skip : ∀ (fields : List FitField) (row : FitRowRaw),
    (∀ f ∈ fields, f.name = "speed" → f.value = none) →
    (fields.foldl fitRowStep row).speed_kmh = row.speed_kmh := by
  intro fields
  induction fields with
  | nil => intro row h; rfl
  | cons f fs ih =>
    intro row h
    simp only [List.foldl_cons]
    rw [ih (fitRowStep row f) (fun g hg => h g (List.mem_cons_of_mem f hg))]
    exact fitRowStep_speed_skip row f (h f (List.mem_cons_self f fs))

/-- C4: in the field loop of the binary extractor, a present `speed`
field with raw value `v` (meters/second) makes the row's `speed_kmh`
exactly `v * 3.6`, and a message in which every `speed` field is absent
(no such field, or the field's decoded value is Python `None`) leaves
`speed_kmh` absent — never `0`. -/
theorem speed_conversion_c4 (pre post : List FitField) (v : ℚ)
    (hpost : ∀ f ∈ post, f.name = "speed" → f.value = none)
    (fields : List FitField)
    (habsent : ∀ f ∈ fields, f.name = "speed" → f.value = none) :
    ((pre ++ FitField.mk "speed" (some (FitValue.num v)) :: post).foldl
        fitRowStep initFitRow).speed_kmh = some (v * (36 / 10 : ℚ)) ∧
    (fields.foldl fitRowStep initFitRow).speed_kmh = none := by
  constructor
  · rw [List.foldl_append]
    simp only [List.foldl_cons]
    rw [foldl_speed_skip post _ hpost]
    rfl
  · rw [foldl_speed_skip fields initFitRow habsent]
    rfl

theorem speed_conversion_c4_witness :
    ((([⟨"timestamp", some (FitValue.stamp (some 0))⟩] : List FitField) ++
        FitField.mk "speed" (some (FitValue.num 5)) :: []).foldl
      fitRowStep initFitRow).speed_kmh = some ((5 : ℚ) * (36 / 10 : ℚ)) ∧
    (([⟨"heart_rate", some (FitValue.num 100)⟩] : List FitField).foldl
      fitRowStep initFitRow).speed_kmh = none := by
  have h := speed_conversion_c4
    ([⟨"timestamp", some (FitValue.stamp (some 0))⟩] : List FitField) [] 5
    (by decide) ([⟨"heart_rate", some (FitValue.num 100)⟩] : List FitField) (by decide)
  exact ⟨h.1, h.2⟩

theorem col_hr (r : Row) : r.col "hr_bpm" = r.hr_bpm := by
  unfold Row.col
  rw [if_pos rfl]

theorem col_power (r : Row) : r.col "power_w" = r.power_w := by
  unfold Row.col
  rw [if_neg (by decide), if_pos rfl]

theorem col_speed (r : Row) : r.col "speed_kmh" = r.speed_kmh := by
  unfold Row.col
  rw [if_neg (by decide), if_neg (by decide), if_pos rfl]

theorem pointOf_none (value_column : String) (r : Row) (h : r.col value_column = none) :
    pointOf value_column r = none := by
  unfold pointOf
  rw [h]
  cases r.timestamp <;> rfl

theorem filterMap_pointOf_filter (value_column : String) :
    ∀ df_data : List Row,
      (df_data.filter (fun r => r.timestamp.isSome && (r.col value_column).isSome)).filterMap
          (pointOf value_column) =
        df_data.filterMap (pointOf value_column) := by
  intro df_data
  induction df_data with
  | nil => rfl
  | cons r rs ih =>
    simp only [List.filter_cons]
    cases hts : r.timestamp with
    | none =>
      have hnone : pointOf value_column r = none := by
        unfold pointOf
        rw [hts]
      simp [hts, List.filterMap_cons, hnone, ih]
    | some ts =>
      cases hcol : r.col value_column with
      | none =>
        have hnone : pointOf value_column r = none := pointOf_none value_column r hcol
        simp [hts, hcol, List.filterMap_cons, hnone, ih]
      | some v =>
        have hsome : pointOf value_column r = some (Int.fdiv ts 1000000, v) := by
          unfold pointOf
          rw [hts, hcol]
        simp [hts, hcol, List.filterMap_cons, hsome, ih]

theorem dataframe_to_apex_series_name (df_data : List Row)
    (value_column series_name : String) :
    (dataframe_to_apex_series df_data value_column series_name).name = series_name := by
  simp only [dataframe_to_apex_series]
  split
  · rfl
  · split
    · rfl
    · rfl

theorem dataframe_to_apex_series_data (df_data : List Row)
    (value_column series_name : String) :
    (dataframe_to_apex_series df_data value_column series_name).data =
      df_data.filterMap (pointOf value_column) := by
  simp only [dataframe_to_apex_series]
  split
  · next hdf =>
    rw [List.isEmpty_iff.mp hdf]
    rfl
  · next hdf =>
    split
    · next hmetric =>
      rw [← filterMap_pointOf_filter value_column df_data, List.isEmpty_iff.mp hmetric]
      rfl
    · next hmetric =>
      exact filterMap_pointOf_filter value_column df_data

/-- C5: the Series Projector emits one `[timestamp_ms, value]` point
exactly for each row that carries both the timestamp and the named
metric, in row order; rows missing the metric contribute nothing (no zero
fill, no null point — every emitted value is the row's own), and the data
is empty when the dataset is empty or no row carries the metric. -/
theorem series_projection_c5 (df_data : List Row) (value_column series_name : String)
    (_mem : value_column ∈ SUPPORTED_METRICS) :
    (dataframe_to_apex_series df_data value_column series_name).name = series_name ∧
    (dataframe_to_apex_series df_data value_column series_name).data =
      df_data.filterMap (pointOf value_column) :=
  ⟨dataframe_to_apex_series_name df_data value_column series_name,
   dataframe_to_apex_series_data df_data value_column series_name⟩

/-- A small concrete frame: a row with heart rate and speed, a row with
power only, and a row with no timestamp. -/
def demoDf : List Row :=
  [⟨some 1000000, some 150, none, some 18⟩,
   ⟨some 2000000, none, some 200, none⟩,
   ⟨none, some 99, none, none⟩]

theorem series_projection_c5_witness :
    ("hr_bpm" : String) ∈ SUPPORTED_METRICS ∧
    (dataframe_to_apex_series demoDf "hr_bpm" "f.fit").name = "f.fit" ∧
    (dataframe_to_apex_series demoDf "hr_bpm" "f.fit").data =
      demoDf.filterMap (pointOf "hr_bpm") := by
  have h := series_projection_c5 demoDf "hr_bpm" "f.fit" (by decide)
  exact ⟨by decide, h.1, h.2⟩

theorem mem_insertByTs (a r : Row) : ∀ l : List Row, a ∈ insertByTs r l ↔ a = r ∨ a ∈ l := by
  intro l
  induction l with
  | nil => simp [insertByTs]
  | cons x xs ih =>
    unfold insertByTs
    by_cases h : sortKey x < sortKey r
    · rw [if_pos h]
      simp only [List.mem_cons, ih]
      tauto
    · rw [if_neg h]
      simp only [List.mem_cons]

theorem mem_sortByTimestamp (a : Row) : ∀ l : List Row, a ∈ sortByTimestamp l ↔ a ∈ l := by
  intro l
  induction l with
  | nil => simp [sortByTimestamp]
  | cons x xs ih =>
    show a ∈ insertByTs x (sortByTimestamp xs) ↔ a ∈ x :: xs
    rw [mem_insertByTs, ih]
    simp only [List.mem_cons]

theorem tcxRows_mem (toDt : String → Option ℤ) :
    ∀ (tps : List Trackpoint) (rows : List Row),
      tcxRows toDt tps = Except.ok rows →
      ∀ r ∈ rows, ∃ tp ∈ tps, tcxRowOfTrackpoint toDt tp = Except.ok (some r) := by
  intro tps
  induction tps with
  | nil =>
    intro rows h r hr
    have : rows = ([] : List Row) := (Except.ok.inj h).symm
    subst this
    exact absurd hr (List.not_mem_nil r)
  | cons tp rest ih =>
    intro rows h r hr
    unfold tcxRows at h
    cases htp : tcxRowOfTrackpoint toDt tp with
    | error e => rw [htp] at h; exact absurd h (by simp)
    | ok o =>
      rw [htp] at h
      cases o with
      | none =>
        obtain ⟨tp', htp', he⟩ := ih rows h r hr
        exact ⟨tp', List.mem_cons_of_mem tp htp', he⟩
      | some r0 =>
        cases hrest : tcxRows toDt rest with
        | error e => rw [hrest] at h; exact absurd h (by simp [Except.map])
        | ok rs =>
          rw [hrest] at h
          have hrows : rows = r0 :: rs := by
            have : Except.ok (ε := PyError) (r0 :: rs) = Except.ok rows := h
            exact (Except.ok.inj this).symm
          subst hrows
          rcases List.mem_cons.mp hr with hr1 | hr2
          · exact ⟨tp, List.mem_cons_self tp rest, by rw [hr1]; exact htp⟩
          · obtain ⟨tp', htp', he⟩ := ih rs hrest r hr2
            exact ⟨tp', List.mem_cons_of_mem tp htp', he⟩

theorem tcxRow_shape (toDt : String → Option ℤ) (tp : Trackpoint) (r : Row)
    (h : tcxRowOfTrackpoint toDt tp = Except.ok (some r)) :
    r.power_w = none ∧ r.speed_kmh = none ∧
    ∃ hr, safe_int tp.hr = Except.ok hr ∧ r.hr_bpm = hr.map (fun i => (i : ℚ)) := by
  cases htime : tp.time with
  | none =>
    simp only [tcxRowOfTrackpoint, htime] at h
    exact absurd h (by simp)
  | some t =>
    simp only [tcxRowOfTrackpoint, htime] at h
    by_cases ht : t = ""
    · rw [if_pos ht] at h
      exact absurd h (by simp)
    · rw [if_neg ht] at h
      cases hdt : toDt t with
      | none => simp only [hdt] at h; exact absurd h (by simp)
      | some ts =>
        simp only [hdt] at h
        cases hsi : safe_int tp.hr with
        | error e => simp only [hsi] at h; exact absurd h (by simp)
        | ok hr =>
          simp only [hsi] at h
          have hrw : Row.mk (some ts) (hr.map (fun i => (i : ℚ))) none none = r :=
            Option.some.inj (Except.ok.inj h)
          subst hrw
          exact ⟨rfl, rfl, hr, rfl, rfl⟩

/-- C8: every row extracted from a TCX document has `power_w` and
`speed_kmh` absent (never zero), so projecting `power_w` or `speed_kmh`
from any TCX-extracted dataset yields empty series data; the heart rate
of each row is the value the Safe Scalar Parser (`safe_int`) read from
the trackpoint's `HeartRateBpm/Value` text. -/
theorem tcx_no_power_speed_c8 (toDt : String → Option ℤ) (tps : List Trackpoint)
    (rows : List Row) (series_name : String)
    (h : parse_tcx_bytes toDt (TcxParseResult.doc tps) = Except.ok rows) :
    (∀ r ∈ rows, r.power_w = none ∧ r.speed_kmh = none ∧
      ∃ tp ∈ tps, ∃ hr, safe_int tp.hr = Except.ok hr ∧
        r.hr_bpm = hr.map (fun i => (i : ℚ))) ∧
    (dataframe_to_apex_series rows "power_w" series_name).data = [] ∧
    (dataframe_to_apex_series rows "speed_kmh" series_name).data = [] := by
  have hall : ∀ r ∈ rows, r.power_w = none ∧ r.speed_kmh = none ∧
      ∃ tp ∈ tps, ∃ hr, safe_int tp.hr = Except.ok hr ∧
        r.hr_bpm = hr.map (fun i => (i : ℚ)) := by
    simp only [parse_tcx_bytes] at h
    cases hrows : tcxRows toDt tps with
    | error e => simp only [hrows] at h; exact absurd h (by simp)
    | ok rows0 =>
      simp only [hrows] at h
      by_cases he : rows0.isEmpty = true
      · rw [if_pos he] at h
        have : rows = ([] : List Row) := (Except.ok.inj h).symm
        subst this
        intro r hr
        exact absurd hr (List.not_mem_nil r)
      · rw [if_neg he] at h
        have hrw : rows = sortByTimestamp (rows0.filter (fun r => r.timestamp.isSome)) :=
          (Except.ok.inj h).symm
        intro r hr
        rw [hrw] at hr
        have hr0 : r ∈ rows0 :=
          List.mem_of_mem_filter ((mem_sortByTimestamp r _).mp hr)
        obtain ⟨tp, htp, he2⟩ := tcxRows_mem toDt tps rows0 hrows r hr0
        obtain ⟨h1, h2, hr1, h4, h5⟩ := tcxRow_shape toDt tp r he2
        exact ⟨h1, h2, tp, htp, hr1, h4, h5⟩
  refine ⟨hall, ?_, ?_⟩
  · rw [dataframe_to_apex_series_data, List.filterMap_eq_nil_iff]
    intro r hr
    exact pointOf_none "power_w" r (by rw [col_power]; exact (hall r hr).1)
  · rw [dataframe_to_apex_series_data, List.filterMap_eq_nil_iff]
    intro r hr
    exact pointOf_none "speed_kmh" r (by rw [col_speed]; exact (hall r hr).2.1)

/-- The dataset `parse_tcx_bytes` extracts from the one-trackpoint demo
document. -/
def demoTcxRows : List Row :=
  [⟨some 10, some 140, none, none⟩]

theorem tcx_no_power_speed_c8_witness :
    (dataframe_to_apex_series demoTcxRows "power_w" "b.tcx").data = [] ∧
    (dataframe_to_apex_series demoTcxRows "speed_kmh" "b.tcx").data = [] := by
  have h := tcx_no_power_speed_c8 toDt0 [⟨some "10", some "140"⟩] demoTcxRows "b.tcx"
    (by decide)
  exact ⟨h.2.1, h.2.2⟩

theorem appendSeries_hr (a b c : List MetricSeries) (s : MetricSeries) :
    appendSeries [("hr_bpm", a), ("speed_kmh", b), ("power_w", c)] "hr_bpm" s =
      [("hr_bpm", a ++ [s]), ("speed_kmh", b), ("power_w", c)] := by
  simp [appendSeries]

theorem appendSeries_speed (a b c : List MetricSeries) (s : MetricSeries) :
    appendSeries [("hr_bpm", a), ("speed_kmh", b), ("power_w", c)] "speed_kmh" s =
      [("hr_bpm", a), ("speed_kmh", b ++ [s]), ("power_w", c)] := by
  simp [appendSeries]

theorem appendSeries_power (a b c : List MetricSeries) (s : MetricSeries) :
    appendSeries [("hr_bpm", a), ("speed_kmh", b), ("power_w", c)] "power_w" s =
      [("hr_bpm", a), ("speed_kmh", b), ("power_w", c ++ [s])] := by
  simp [appendSeries]

theorem processFile_shape (toDt : String → Option ℤ) (uf : UploadFile)
    (a b c : List MetricSeries) (df : List Row)
    (hdf : extract_dataframe_from_file toDt (effectiveName uf) uf.content = Except.ok df) :
    processFile toDt [("hr_bpm", a), ("speed_kmh", b), ("power_w", c)] uf =
      Except.ok [("hr_bpm", a ++ (fileContribution toDt uf "hr_bpm").toList),
                 ("speed_kmh", b ++ (fileContribution toDt uf "speed_kmh").toList),
                 ("power_w", c ++ (fileContribution toDt uf "power_w").toList)] := by
  simp only [processFile, fileContribution, hdf]
  by_cases he : df.isEmpty = true
  · simp [he]
  · simp only [if_neg he]
    by_cases h1 : (dataframe_to_apex_series df "hr_bpm" (effectiveName uf)).data = [] <;>
    by_cases h2 : (dataframe_to_apex_series df "speed_kmh" (effectiveName uf)).data = [] <;>
    by_cases h3 : (dataframe_to_apex_series df "power_w" (effectiveName uf)).data = [] <;>
    simp [SUPPORTED_METRICS, h1, h2, h3, appendSeries_hr, appendSeries_speed, appendSeries_power]

theorem batchSeries_cons (toDt : String → Option ℤ) (f : UploadFile)
    (fs : List UploadFile) (metric : String) :
    batchSeries toDt (f :: fs) metric =
      (fileContribution toDt f metric).toList ++ batchSeries toDt fs metric := by
  cases h : fileContribution toDt f metric <;> simp [batchSeries, List.filterMap_cons, h]

theorem processFiles_shape (toDt : String → Option ℤ) :
    ∀ (files : List UploadFile) (a b c : List MetricSeries)
      (resp : List (String × List MetricSeries)),
      processFiles toDt [("hr_bpm", a), ("speed_kmh", b), ("power_w", c)] files =
        Except.ok resp →
      resp = [("hr_bpm", a ++ batchSeries toDt files "hr_bpm"),
              ("speed_kmh", b ++ batchSeries toDt files "speed_kmh"),
              ("power_w", c ++ batchSeries toDt files "power_w")] := by
  intro files
  induction files with
  | nil =>
    intro a b c resp h
    have h' : Except.ok (ε := PyError) [("hr_bpm", a), ("speed_kmh", b), ("power_w", c)] =
        Except.ok resp := h
    rw [← Except.ok.inj h']
    simp [batchSeries]
  | cons f fs ih =>
    intro a b c resp h
    rw [processFiles_cons] at h
    cases hpf : processFile toDt [("hr_bpm", a), ("speed_kmh", b), ("power_w", c)] f with
    | error e => simp [hpf] at h
    | ok acc =>
      simp only [hpf] at h
      cases hex : extract_dataframe_from_file toDt (effectiveName f) f.content with
      | error e =>
        have hcontra : processFile toDt [("hr_bpm", a), ("speed_kmh", b), ("power_w", c)] f =
            Except.error e := by
          simp [processFile, hex]
        rw [hcontra] at hpf
        exact absurd hpf (by simp)
      | ok df =>
        have hshape := processFile_shape toDt f a b c df hex
        rw [hpf] at hshape
        have hacc := Except.ok.inj hshape
        subst hacc
        rw [ih _ _ _ resp h]
        simp [batchSeries_cons, List.append_assoc]

theorem fileContribution_nonempty (toDt : String → Option ℤ) (uf : UploadFile)
    (metric : String) (s : MetricSeries)
    (h : fileContribution toDt uf metric = some s) : s.data ≠ [] := by
  cases hex : extract_dataframe_from_file toDt (effectiveName uf) uf.content with
  | error e =>
    simp only [fileContribution, hex] at h
    exact absurd h (by simp)
  | ok df =>
    simp only [fileContribution, hex] at h
    by_cases he : df.isEmpty = true
    · rw [if_pos he] at h
      exact absurd h (by simp)
    · rw [if_neg he] at h
      by_cases hd : (dataframe_to_apex_series df metric (effectiveName uf)).data.isEmpty = true
      · rw [if_pos hd] at h
        exact absurd h (by simp)
      · rw [if_neg hd] at h
        have hs := Option.some.inj h
        intro hnil
        apply hd
        rw [hs, hnil]
        rfl

theorem batchSeries_nonempty (toDt : String → Option ℤ) (files : List UploadFile)
    (metric : String) : ∀ s ∈ batchSeries toDt files metric, s.data ≠ [] := by
  intro s hs
  obtain ⟨uf, _, hc⟩ := List.mem_filterMap.mp hs
  exact fileContribution_nonempty toDt uf metric s hc

/-- C6: on a batch that completes, each metric's collection is exactly the
submission-ordered list of contributions — `batchSeries` is an
order-preserving `filterMap` over the file list — and every series in a
collection has non-empty data (a file whose projected series is empty for
a metric is never appended to that metric's collection). -/
theorem batch_order_c6 (toDt : String → Option ℤ) (files : List UploadFile)
    (resp : List (String × List MetricSeries))
    (h : parse_activity_files toDt files = Except.ok resp) :
    resp = [("hr_bpm", batchSeries toDt files "hr_bpm"),
            ("speed_kmh", batchSeries toDt files "speed_kmh"),
            ("power_w", batchSeries toDt files "power_w")] ∧
    ∀ metric : String, ∀ s ∈ batchSeries toDt files metric, s.data ≠ [] := by
  have hs := processFiles_shape toDt files [] [] [] resp h
  exact ⟨by simpa using hs, fun metric => batchSeries_nonempty toDt files metric⟩

theorem batch_order_c6_witness :
    (([("hr_bpm", [⟨"b.tcx", [(0, 140)]⟩]), ("speed_kmh", []), ("power_w", [])] :
        List (String × List MetricSeries)) =
      [("hr_bpm", batchSeries toDt0 [⟨"b.tcx", goodTcxPayload⟩] "hr_bpm"),
       ("speed_kmh", batchSeries toDt0 [⟨"b.tcx", goodTcxPayload⟩] "speed_kmh"),
       ("power_w", batchSeries toDt0 [⟨"b.tcx", goodTcxPayload⟩] "power_w")]) ∧
    (MetricSeries.mk "b.tcx" [(0, 140)]).data ≠ [] := by
  have h := batch_order_c6 toDt0 [⟨"b.tcx", goodTcxPayload⟩]
    [("hr_bpm", [⟨"b.tcx", [(0, 140)]⟩]), ("speed_kmh", []), ("power_w", [])] (by decide)
  exact ⟨h.1, h.2 "hr_bpm" (MetricSeries.mk "b.tcx" [(0, 140)]) (by decide)⟩

/-- C10: every completed batch response binds exactly the three metric
keys, in the fixed order of `SUPPORTED_METRICS`, each to a (possibly
empty) list — no key is ever missing and none is ever added. -/
theorem response_keys_c10 (toDt : String → Option ℤ) (files : List UploadFile)
    (resp : List (String × List MetricSeries))
    (h : parse_activity_files toDt files = Except.ok resp) :
    resp.map Prod.fst = SUPPORTED_METRICS := by
  rw [processFiles_shape toDt files [] [] [] resp h]
  rfl

theorem response_keys_c10_witness :
    (([("hr_bpm", []), ("speed_kmh", []), ("power_w", [])] :
        List (String × List MetricSeries)).map Prod.fst) = SUPPORTED_METRICS :=
  response_keys_c10 toDt0 [] _ (by decide)
